import Mathlib

/-!
Shallow embedding of the real-time presence layer of the UploadFiles
repository, covering:

* `src/frontend/src/contexts/ViewingContext.tsx` — the client view-state
  reducer (`viewingReducer`) over `ViewingState`
  (`fileViewers : Map<string, FileViewers>`, `currentlyViewing`), and the
  `ViewingProvider` cleanup effect;
* `src/unnamed/part_000` — the `SocketService` class (connection guard,
  lifecycle handlers, wire-event registration, the local `on`/`off`/
  `triggerEvent` pub-sub registry, guarded outbound emits, `disconnect`,
  `forceReconnect`).

JavaScript `Map` objects are modelled as association lists with the
`Map.set` replace-in-place-or-append semantics.  `new Date()` occurrences
become an explicit `now : Nat` argument of the transition.  Because some
claims are about reference identity and in-place mutation, the reducer is
embedded twice: once with plain value semantics (`viewingReducer`), and
once instrumented with an explicit heap of `FileViewers` records
(`viewingReducerRef`) so that the sharing of record references between the
old and the new `Map` — and any in-place mutation of a shared record — is
observable, exactly as in the JavaScript source.
-/

namespace UploadFiles

/-- The `ViewerInfo` from the frontend types: one identity viewing a file.
`joinedAt : Date` is modelled as a `Nat` timestamp. -/
structure ViewerInfo where
  id : String
  name : String
  email : String
  socketId : String
  joinedAt : Nat
deriving DecidableEq, Repr

/-- The `FileViewers` record cached per file id: `{ fileId, viewers, lastUpdated }`. -/
structure FileViewers where
  fileId : String
  viewers : List ViewerInfo
  lastUpdated : Nat
deriving DecidableEq, Repr

/-- A JavaScript `Map` as an association list (insertion order kept). -/
abbrev JsMap (α : Type) := List (String × α)

/-- The `Map.prototype.set`: replace in place when the key is present
(keeping its position), append otherwise. -/
def JsMap.set (m : JsMap α) (k : String) (v : α) : JsMap α :=
  if m.any (fun p => p.1 = k) then
    m.map (fun p => if p.1 = k then (k, v) else p)
  else
    m ++ [(k, v)]

/-- The `Map.prototype.get`, as an `Option`. -/
def JsMap.get (m : JsMap α) (k : String) : Option α :=
  (m.find? (fun p => p.1 = k)).map (·.2)

/-- The `Map.prototype.delete`. -/
def JsMap.del (m : JsMap α) (k : String) : JsMap α :=
  m.filter (fun p => ¬ p.1 = k)

/-- The five `ViewingAction` variants of `ViewingContext.tsx`. -/
inductive ViewingAction where
  | setFileViewers (fileId : String) (viewers : List ViewerInfo)
  | userStartedViewing (fileId : String) (viewer : ViewerInfo)
  | userStoppedViewing (fileId : String) (userId : String)
  | setCurrentlyViewing (payload : Option String)
  | clearFileViewers (payload : String)
deriving DecidableEq, Repr

/-- The `ViewingState` (value semantics): `fileViewers` map plus the
`currentlyViewing` pointer. -/
structure ViewingState where
  fileViewers : JsMap FileViewers
  currentlyViewing : Option String
deriving DecidableEq, Repr

/-- The `initialState` of the context. -/
def initialViewingState : ViewingState :=
  { fileViewers := [], currentlyViewing := none }

/-- The `viewingReducer` of `ViewingContext.tsx`, value semantics.  Every
`new Date()` in the source becomes the explicit `now` argument. -/
def viewingReducer (state : ViewingState) (action : ViewingAction)
    (now : Nat) : ViewingState :=
  match action with
  | .setFileViewers fileId viewers =>
      { state with
        fileViewers := state.fileViewers.set fileId
          { fileId := fileId, viewers := viewers, lastUpdated := now } }
  | .userStartedViewing fileId viewer =>
      let currentViewers := (state.fileViewers.get fileId).getD
        { fileId := fileId, viewers := [], lastUpdated := now }
      let newViewers :=
        match currentViewers.viewers.findIdx? (fun v => v.id = viewer.id) with
        | none => currentViewers.viewers ++ [viewer]
        | some i => currentViewers.viewers.set i viewer
      { state with
        fileViewers := state.fileViewers.set fileId
          { currentViewers with viewers := newViewers, lastUpdated := now } }
  | .userStoppedViewing fileId userId =>
      match state.fileViewers.get fileId with
      | some currentViewers =>
          let remaining := currentViewers.viewers.filter (fun v => ¬ v.id = userId)
          if remaining.isEmpty then
            { state with fileViewers := state.fileViewers.del fileId }
          else
            { state with
              fileViewers := state.fileViewers.set fileId
                { currentViewers with viewers := remaining, lastUpdated := now } }
      | none => { state with fileViewers := state.fileViewers }
  | .setCurrentlyViewing payload =>
      { state with currentlyViewing := payload }
  | .clearFileViewers payload =>
      { state with fileViewers := state.fileViewers.del payload }

/-! ### Reference-semantics embedding of the reducer

JavaScript `Map` copies (`new Map(state.fileViewers)`) are shallow: the
copy shares the `FileViewers` *records* with the original.  To make that
sharing observable, records live on an explicit heap (`RHeap`, addresses
are indices) and the map stores addresses.  Writing through a shared
address is the in-place mutation performed by the source. -/

/-- Heap of `FileViewers` records; an address is an index into `recs`. -/
structure RHeap where
  recs : List FileViewers
deriving DecidableEq, Repr

/-- The `ViewingState` under reference semantics: `fileViewers` maps a file id
to the heap address of its `FileViewers` record. -/
structure RViewingState where
  fileViewers : JsMap Nat
  currentlyViewing : Option String
deriving DecidableEq, Repr

/-- Dereference an address (states produced by the reducer only hold
live addresses; the default is never reached from them). -/
def RHeap.read (h : RHeap) (a : Nat) : FileViewers :=
  h.recs.getD a { fileId := "", viewers := [], lastUpdated := 0 }

/-- Overwrite the record at an address (in-place mutation of the object). -/
def RHeap.write (h : RHeap) (a : Nat) (r : FileViewers) : RHeap :=
  { recs := h.recs.set a r }

/-- Allocate a fresh record, returning its address. -/
def RHeap.alloc (h : RHeap) (r : FileViewers) : RHeap × Nat :=
  ({ recs := h.recs ++ [r] }, h.recs.length)

/-- The `viewingReducer` under reference semantics.  `new Map(state.fileViewers)`
copies the address map only; `USER_STARTED_VIEWING` and
`USER_STOPPED_VIEWING` fetch the record behind the (possibly shared)
address and update its fields through the address, exactly as the source
mutates `currentViewers`. -/
def viewingReducerRef (h : RHeap) (state : RViewingState)
    (action : ViewingAction) (now : Nat) : RHeap × RViewingState :=
  match action with
  | .setFileViewers fileId viewers =>
      let (h', a) := h.alloc { fileId := fileId, viewers := viewers, lastUpdated := now }
      (h', { state with fileViewers := state.fileViewers.set fileId a })
  | .userStartedViewing fileId viewer =>
      match state.fileViewers.get fileId with
      | some a =>
          let currentViewers := h.read a
          let newViewers :=
            match currentViewers.viewers.findIdx? (fun v => v.id = viewer.id) with
            | none => currentViewers.viewers ++ [viewer]
            | some i => currentViewers.viewers.set i viewer
          (h.write a { currentViewers with viewers := newViewers, lastUpdated := now },
           { state with fileViewers := state.fileViewers.set fileId a })
      | none =>
          let (h', a) := h.alloc { fileId := fileId, viewers := [viewer], lastUpdated := now }
          (h', { state with fileViewers := state.fileViewers.set fileId a })
  | .userStoppedViewing fileId userId =>
      match state.fileViewers.get fileId with
      | some a =>
          let currentViewers := h.read a
          let remaining := currentViewers.viewers.filter (fun v => ¬ v.id = userId)
          let h' := h.write a { currentViewers with viewers := remaining, lastUpdated := now }
          if remaining.isEmpty then
            (h', { state with fileViewers := state.fileViewers.del fileId })
          else
            (h', { state with fileViewers := state.fileViewers.set fileId a })
      | none => (h, { state with fileViewers := state.fileViewers })
  | .setCurrentlyViewing payload =>
      (h, { state with currentlyViewing := payload })
  | .clearFileViewers payload =>
      (h, { state with fileViewers := state.fileViewers.del payload })

/-! ### SocketService (src/unnamed/part_000)

Callbacks registered through `on` are identified by `Nat` ids; their
behaviour, where it matters (a callback that throws), is supplied as a
`throws : Nat → Bool` environment.  Emissions to the server and
`console.warn` diagnostics are returned alongside the new state.  Each
`io(...)` call opens a transport session, numbered by `nextSessionId`;
only `socket.disconnect()` (inside `SocketService.disconnect`) closes
one. -/

/-- The `maxReconnectAttempts` field of `SocketService`. -/
def maxReconnectAttempts : Nat := 5

/-- The `reconnectDelay` field of `SocketService` (milliseconds). -/
def reconnectDelay : Nat := 1000

/-- The registrations `setupEventListeners` performs on the socket, in
source order: wire event name, and the local event class passed to
`triggerEvent` by that handler (`none` when the handler only shows a
toast — `file-being-edited` — or only requests the online-user list —
`connected`). -/
def wireRegistrations : List (String × Option String) :=
  [ ("file-viewers-updated", some "file-viewers-updated"),
    ("user-started-viewing-file", some "user-started-viewing-file"),
    ("user-stopped-viewing-file", some "user-stopped-viewing-file"),
    ("new-file-uploaded", some "fileListUpdated"),
    ("user-started-editing", some "userStartedEditing"),
    ("user-stopped-editing", some "userStoppedEditing"),
    ("file-being-edited", none),
    ("resource-shared-with-you", some "resourceShared"),
    ("permission-updated", some "permissionUpdated"),
    ("notification", some "notification"),
    ("onlineUsersUpdated", some "onlineUsersUpdated"),
    ("connected", none) ]

/-- One `socket.io-client` socket as seen by the service: its session id,
the `auth` token passed to `io(...)`, the transport connection flag, and
the wire-event handlers registered on it by `setupEventListeners`
(lifecycle handlers are modelled by the `onConnectEvent` /
`onDisconnectEvent` / `onConnectErrorEvent` transitions below). -/
structure SocketState where
  sessionId : Nat
  auth : String
  connected : Bool
  handlers : List (String × Option String)
deriving DecidableEq, Repr

/-- The private fields of the `SocketService` singleton, plus session
bookkeeping (`nextSessionId` numbers every `io(...)` call;
`closedSessions` records every `socket.disconnect()`). -/
structure ServiceState where
  socket : Option SocketState
  isConnected : Bool
  isConnecting : Bool
  listeners : JsMap (List Nat)
  connectionAttempts : Nat
  nextSessionId : Nat
  closedSessions : List Nat
deriving DecidableEq, Repr

/-- Fresh `SocketService` instance. -/
def initService : ServiceState :=
  { socket := none, isConnected := false, isConnecting := false,
    listeners := [], connectionAttempts := 0, nextSessionId := 0,
    closedSessions := [] }

/-- Transport sessions opened and not yet closed. -/
def ServiceState.openSessions (s : ServiceState) : List Nat :=
  (List.range s.nextSessionId).filter (fun i => ¬ s.closedSessions.contains i)

/-- The `this.socket?.connected` — the guard used by the outbound emitters. -/
def ServiceState.socketConnected (s : ServiceState) : Bool :=
  (s.socket.map (·.connected)).getD false

namespace SocketService

/-- The `connect(token)`: returns immediately when `this.isConnecting ||
(this.socket && this.socket.connected)`; otherwise sets `isConnecting`,
calls `io(SOCKET_URL, { auth: { token }, ... })` (opening a fresh
session, not yet connected) and registers the event listeners on it.
The previous socket, if any, is overwritten without being closed. -/
def connect (s : ServiceState) (token : String) : ServiceState :=
  if s.isConnecting ∨ s.socketConnected then s
  else
    { s with
      isConnecting := true,
      socket := some { sessionId := s.nextSessionId, auth := token,
                       connected := false, handlers := wireRegistrations },
      nextSessionId := s.nextSessionId + 1 }

/-- Body of the `socket.on('connect', ...)` handler: marks the service
connected, resets the attempt counter, and calls `reregisterListeners`,
which runs `setupEventListeners` again — appending a second copy of every
wire-event registration to the socket (socket.io's `on` does not
deduplicate).  The transport has just connected, so the socket's
`connected` flag is true. -/
def onConnectEvent (s : ServiceState) : ServiceState :=
  match s.socket with
  | none => s
  | some sock =>
      { s with
        socket := some ({ sock with
          connected := true,
          handlers := sock.handlers ++ wireRegistrations }),
        isConnected := true,
        isConnecting := false,
        connectionAttempts := 0 }

/-- Body of the `socket.on('disconnect', ...)` handler (the transport has
dropped, so the socket's `connected` flag is false). -/
def onDisconnectEvent (s : ServiceState) : ServiceState :=
  match s.socket with
  | none => s
  | some sock =>
      { s with
        socket := some ({ sock with connected := false }),
        isConnected := false,
        isConnecting := false }

/-- Body of the `socket.on('connect_error', ...)` handler. -/
def onConnectErrorEvent (s : ServiceState) : ServiceState :=
  match s.socket with
  | none => s
  | some sock =>
      { s with
        socket := some ({ sock with connected := false }),
        isConnecting := false,
        connectionAttempts := s.connectionAttempts + 1 }

/-- The `disconnect()`: when a socket exists, clears the flags, removes the
socket's transport listeners, closes the session (`socket.disconnect()`),
drops the handle (`this.socket = null`) and clears the local listener
registry; when `this.socket` is already null it does nothing at all. -/
def disconnect (s : ServiceState) : ServiceState :=
  match s.socket with
  | none => s
  | some sock =>
      { s with
        isConnected := false,
        isConnecting := false,
        socket := none,
        closedSessions := s.closedSessions ++ [sock.sessionId],
        listeners := [] }

/-- The `forceReconnect(token)`: `disconnect()` now, `connect(token)` after a
1000 ms `setTimeout` (the delay only sequences the two calls). -/
def forceReconnect (s : ServiceState) (token : String) : ServiceState :=
  connect (disconnect s) token

/-- The `shouldReconnect()`. -/
def shouldReconnect (s : ServiceState) : Bool :=
  ¬ s.isConnected ∧ ¬ s.isConnecting ∧
    decide (s.connectionAttempts < maxReconnectAttempts)

/-- Result of an outbound action: the service state afterwards, the wire
messages emitted to the server, and the `console.warn` diagnostics. -/
structure EmitResult where
  state : ServiceState
  sent : List (String × String)
  warnings : List String
deriving DecidableEq, Repr

/-- The `startViewingFile(fileId)`: emits `start-viewing-file` when
`this.socket?.connected`, otherwise warns and drops the action. -/
def startViewingFile (s : ServiceState) (fileId : String) : EmitResult :=
  if s.socketConnected then
    { state := s, sent := [("start-viewing-file", fileId)], warnings := [] }
  else
    { state := s, sent := [],
      warnings := ["Cannot start viewing file - socket not connected"] }

/-- The `stopViewingFile(fileId)`. -/
def stopViewingFile (s : ServiceState) (fileId : String) : EmitResult :=
  if s.socketConnected then
    { state := s, sent := [("stop-viewing-file", fileId)], warnings := [] }
  else
    { state := s, sent := [],
      warnings := ["Cannot stop viewing file - socket not connected"] }

/-- Public `emit(event, data)`: same connectivity guard. -/
def emit (s : ServiceState) (event : String) (data : String) : EmitResult :=
  if s.socketConnected then
    { state := s, sent := [(event, data)], warnings := [] }
  else
    { state := s, sent := [],
      warnings := ["Socket not connected, cannot emit event: " ++ event] }

/-- The `on(event, callback)`: ensures the event has a list, then pushes the
callback at its end (no deduplication). -/
def «on» (s : ServiceState) (event : String) (callback : Nat) : ServiceState :=
  let listeners :=
    if (s.listeners.get event).isSome then s.listeners
    else s.listeners.set event []
  { s with
    listeners := listeners.set event (((listeners.get event).getD []) ++ [callback]) }

/-- The `off(event, callback)`: looks the event's list up; if the callback
occurs, splices out the first occurrence (`indexOf` + `splice(index, 1)`);
otherwise leaves everything unchanged. -/
def off (s : ServiceState) (event : String) (callback : Nat) : ServiceState :=
  match s.listeners.get event with
  | none => s
  | some callbacks =>
      if callbacks.contains callback then
        { s with
          listeners := s.listeners.set event
            (callbacks.eraseIdx (callbacks.indexOf callback)) }
      else s

/-- The `forEach` loop of `triggerEvent`: every callback is invoked inside
`try { ... } catch` — a throwing callback (per the `throws` environment)
is logged with its 1-based index and the loop continues.  Returns the
callbacks invoked, in order, and the logged failures. -/
def runCallbacks (throws : Nat → Bool) :
    List Nat → Nat → List Nat × List (Nat × Nat)
  | [], _ => ([], [])
  | c :: rest, i =>
      let later := runCallbacks throws rest (i + 1)
      if throws c then (c :: later.1, (i + 1, c) :: later.2)
      else (c :: later.1, later.2)

/-- Result of a local dispatch. -/
structure DispatchResult where
  state : ServiceState
  invoked : List Nat
  failures : List (Nat × Nat)
  warnings : List String
deriving DecidableEq, Repr

/-- The `triggerEvent(event, data)`: fetches the event's callback list; when
it exists and is non-empty runs the `forEach` loop above, otherwise warns
that no listeners were found.  It never touches `this.listeners`. -/
def triggerEvent (s : ServiceState) (event : String)
    (throws : Nat → Bool) : DispatchResult :=
  match s.listeners.get event with
  | some callbacks =>
      if callbacks.length > 0 then
        let r := runCallbacks throws callbacks 0
        { state := s, invoked := r.1, failures := r.2, warnings := [] }
      else
        { state := s, invoked := [], failures := [],
          warnings := ["No listeners found for event " ++ event] }
  | none =>
      { state := s, invoked := [], failures := [],
        warnings := ["No listeners found for event " ++ event] }

/-- Number of handlers registered on the transport for wire event `w`. -/
def countHandlers (s : ServiceState) (w : String) : Nat :=
  match s.socket with
  | none => 0
  | some sock => (sock.handlers.filter (fun h => h.1 = w)).length

/-- Local event classes triggered, in order, when the transport delivers
wire event `w`: every registered handler for `w` runs once in
registration order; each handler calls `triggerEvent` for its local event
class (or none, for the toast-only handlers). -/
def dispatchWire (s : ServiceState) (w : String) : List String :=
  match s.socket with
  | none => []
  | some sock => sock.handlers.filterMap (fun h => if h.1 = w then h.2 else none)

/-- The `k` successive firings of the transport's `connect` lifecycle event. -/
def applyConnects : Nat → ServiceState → ServiceState
  | 0, s => s
  | k + 1, s => applyConnects k (onConnectEvent s)

end SocketService

/-- A viewer list holds at most one entry per identity id. -/
def viewerIdsNodup (l : List ViewerInfo) : Prop :=
  (l.map (fun v => v.id)).Nodup

instance (l : List ViewerInfo) : Decidable (viewerIdsNodup l) := by
  unfold viewerIdsNodup; infer_instance

/-- Spec invariant on the client cache: every cached viewer list holds at
most one entry per identity id. -/
def ViewingState.uniqueViewerIds (s : ViewingState) : Prop :=
  ∀ p ∈ s.fileViewers, viewerIdsNodup p.2.viewers

instance (s : ViewingState) : Decidable s.uniqueViewerIds := by
  unfold ViewingState.uniqueViewerIds; infer_instance

/-- The viewer lists carried by an action's payload hold at most one entry
per identity id (only `SET_FILE_VIEWERS` carries a list). -/
def ViewingAction.payloadViewerIdsNodup : ViewingAction → Prop
  | .setFileViewers _ viewers => viewerIdsNodup viewers
  | _ => True

instance (a : ViewingAction) : Decidable a.payloadViewerIdsNodup := by
  cases a <;> (unfold ViewingAction.payloadViewerIdsNodup; infer_instance)

/-- Insert-or-replace by identity, in the spec's vocabulary: when the
identity is absent its entry is appended, when present the existing entry
is replaced by the new one. -/
def upsertByIdentity (l : List ViewerInfo) (v : ViewerInfo) : List ViewerInfo :=
  if l.any (fun w => w.id = v.id) then
    l.map (fun w => if w.id = v.id then v else w)
  else l ++ [v]

/-- The client process: the `SocketService` singleton together with the
`ViewingProvider`'s reducer state. -/
structure ClientState where
  service : ServiceState
  viewing : ViewingState
deriving DecidableEq, Repr

/-- Cleanup function of the `ViewingProvider` connection effect: stops
viewing the current file (if any) and calls `socketService.disconnect()`.
No reducer action is dispatched, so `viewing` is left as it was. -/
def ViewingProvider.cleanup (c : ClientState) : ClientState :=
  let svc :=
    match c.viewing.currentlyViewing with
    | some fileId => (SocketService.stopViewingFile c.service fileId).state
    | none => c.service
  { c with service := SocketService.disconnect svc }

/-! ## Helper lemmas about the `JsMap` operations -/

theorem JsMap.get_set_self {α : Type} (m : JsMap α) (k : String) (v : α) :
    (m.set k v).get k = some v := by
  unfold JsMap.set JsMap.get
  split
  next h =>
    rw [List.find?_map]
    have hpred : ((fun p : String × α => decide (p.1 = k)) ∘
        fun p => if p.1 = k then (k, v) else p) = fun p => decide (p.1 = k) := by
      funext p
      by_cases hp : p.1 = k <;> simp [Function.comp, hp]
    rw [hpred]
    obtain ⟨q, hq, hqk⟩ := List.any_eq_true.1 h
    cases hf : List.find? (fun p => decide (p.1 = k)) m with
    | none =>
        rw [List.find?_eq_none] at hf
        exact absurd hqk (hf q hq)
    | some q' =>
        have hk : q'.1 = k := by simpa using List.find?_some hf
        simp [hk]
  next h =>
    rw [List.find?_append]
    have h1 : List.find? (fun p : String × α => decide (p.1 = k)) m = none := by
      rw [List.find?_eq_none]
      intro x hx hfx
      exact h (List.any_eq_true.2 ⟨x, hx, hfx⟩)
    simp [h1, List.find?]

theorem JsMap.get_set_ne {α : Type} (m : JsMap α) (k k' : String) (v : α)
    (h : k' ≠ k) : (m.set k v).get k' = m.get k' := by
  unfold JsMap.set JsMap.get
  split
  next =>
    rw [List.find?_map]
    have hpred : ((fun p : String × α => decide (p.1 = k')) ∘
        fun p => if p.1 = k then (k, v) else p) = fun p => decide (p.1 = k') := by
      funext p
      by_cases hp : p.1 = k
      · simp [Function.comp, hp, Ne.symm h]
      · simp [Function.comp, hp]
    rw [hpred]
    cases hf : List.find? (fun p => decide (p.1 = k')) m with
    | none => simp
    | some q' =>
        have hk : q'.1 = k' := by simpa using List.find?_some hf
        simp [hk, h]
  next =>
    rw [List.find?_append]
    have h2 : List.find? (fun p : String × α => decide (p.1 = k')) [(k, v)] = none := by
      simp [List.find?, Ne.symm h]
    cases hf : List.find? (fun p : String × α => decide (p.1 = k')) m <;>
      simp [h2, hf]

theorem JsMap.mem_set {α : Type} {m : JsMap α} {k : String} {v : α}
    {p : String × α} (hp : p ∈ m.set k v) : p = (k, v) ∨ p ∈ m := by
  unfold JsMap.set at hp
  split at hp
  next =>
    obtain ⟨q, hq, hgq⟩ := List.mem_map.1 hp
    by_cases hk : q.1 = k
    · left; simp [hk] at hgq; exact hgq.symm
    · right; simp [hk] at hgq; exact hgq ▸ hq
  next =>
    rcases List.mem_append.1 hp with h | h
    · right; exact h
    · left; simpa using h

theorem JsMap.get_mem {α : Type} {m : JsMap α} {k : String} {v : α}
    (h : m.get k = some v) : (k, v) ∈ m := by
  unfold JsMap.get at h
  cases hf : List.find? (fun p => decide (p.1 = k)) m with
  | none => rw [hf] at h; simp at h
  | some q =>
      rw [hf] at h
      have hq : q ∈ m := List.mem_of_find?_eq_some hf
      have hk : q.1 = k := by simpa using List.find?_some hf
      simp at h
      have : q = (k, v) := by
        cases q
        simp_all
      exact this ▸ hq

theorem JsMap.mem_del {α : Type} {m : JsMap α} {k : String} {p : String × α}
    (hp : p ∈ m.del k) : p ∈ m :=
  List.mem_of_mem_filter hp

theorem JsMap.set_set_same {α : Type} (m : JsMap α) (k : String) (v : α) :
    (m.set k v).set k v = m.set k v := by
  unfold JsMap.set
  split
  next h =>
    have hany : (m.map fun p => if p.1 = k then (k, v) else p).any
        (fun p => p.1 = k) = true := by
      obtain ⟨q, hq, hqk⟩ := List.any_eq_true.1 h
      refine List.any_eq_true.2 ⟨(k, v), List.mem_map.2 ⟨q, hq, ?_⟩, by simp⟩
      simp [by simpa using hqk]
    rw [if_pos hany, List.map_map]
    refine List.map_congr_left fun p _ => ?_
    by_cases hp : p.1 = k <;> simp [Function.comp, hp]
  next h =>
    have hany : (m ++ [(k, v)]).any (fun p => p.1 = k) = true := by
      refine List.any_eq_true.2 ⟨(k, v), List.mem_append.2 (Or.inr (by simp)), by simp⟩
    rw [if_pos hany, List.map_append]
    have hm : m.map (fun p => if p.1 = k then (k, v) else p) = m := by
      conv_rhs => rw [← List.map_id m]
      refine List.map_congr_left fun p hp => ?_
      have : ¬ p.1 = k := fun hc =>
        (by simpa using h : ¬ m.any (fun p => p.1 = k) = true)
          (List.any_eq_true.2 ⟨p, hp, by simp [hc]⟩)
      simp [this]
    rw [hm]
    simp

/-! ## Claim theorems -/

/-- Claim C1: the claim says `viewingReducer` never mutates the previous state in
place — in particular every `FileViewers` record reachable from the
previous state stays unchanged.  The code violates this: on
`USER_STARTED_VIEWING` for a file already cached, the record fetched from
the shallow `Map` copy is shared with the previous state and the new
viewer is pushed into it in place.  Evaluated here at a concrete input:
the record at heap address 0 — referenced by the previous state's map —
changes from one viewer to two. -/
theorem C1_userStartedViewing_mutates_shared_record :
    (viewingReducerRef
        { recs := [{ fileId := "f",
                     viewers := [{ id := "u1", name := "n1", email := "e1",
                                   socketId := "s1", joinedAt := 0 }],
                     lastUpdated := 0 }] }
        { fileViewers := [("f", 0)], currentlyViewing := none }
        (.userStartedViewing "f"
          { id := "u2", name := "n2", email := "e2", socketId := "s2", joinedAt := 1 })
        5).1.read 0
      = { fileId := "f",
          viewers := [{ id := "u1", name := "n1", email := "e1",
                        socketId := "s1", joinedAt := 0 },
                      { id := "u2", name := "n2", email := "e2",
                        socketId := "s2", joinedAt := 1 }],
          lastUpdated := 5 } ∧
    RHeap.read
        { recs := [{ fileId := "f",
                     viewers := [{ id := "u1", name := "n1", email := "e1",
                                   socketId := "s1", joinedAt := 0 }],
                     lastUpdated := 0 }] } 0
      ≠ { fileId := "f",
          viewers := [{ id := "u1", name := "n1", email := "e1",
                        socketId := "s1", joinedAt := 0 },
                      { id := "u2", name := "n2", email := "e2",
                        socketId := "s2", joinedAt := 1 }],
          lastUpdated := 5 } := by
  constructor
  · rfl
  · decide

/-- Claim C7: the reducer is idempotent under replay of an identical
`SET_FILE_VIEWERS` action.  `new Date()` is the ambient time of the
transition, modelled as the explicit `now` input, so "the same action"
is replayed with the same `now`. -/
theorem C7_setFileViewers_idempotent (s : ViewingState) (fileId : String)
    (viewers : List ViewerInfo) (now : Nat) :
    viewingReducer (viewingReducer s (.setFileViewers fileId viewers) now)
        (.setFileViewers fileId viewers) now
      = viewingReducer s (.setFileViewers fileId viewers) now := by
  simp only [viewingReducer]
  rw [JsMap.set_set_same]

/-- The `forEach` loop invokes every callback of the list, in order, and
reports exactly the throwing ones. -/
theorem runCallbacks_invokes_all (throws : Nat → Bool) :
    ∀ (callbacks : List Nat) (i : Nat),
      (SocketService.runCallbacks throws callbacks i).1 = callbacks ∧
      (SocketService.runCallbacks throws callbacks i).2.map (fun p => p.2)
        = callbacks.filter throws := by
  intro callbacks
  induction callbacks with
  | nil => intro i; exact ⟨rfl, rfl⟩
  | cons c rest ih =>
      intro i
      obtain ⟨ih1, ih2⟩ := ih (i + 1)
      by_cases hc : throws c = true <;>
        simp [SocketService.runCallbacks, hc, ih1, ih2, List.filter_cons]

/-- Claim C5: a throwing callback is isolated during dispatch: every registered
callback for the class is still invoked (in registration order), the
failure is reported (the failing callbacks are exactly those logged), and
the listener registry — the whole service state — is unchanged. -/
theorem C5_callback_isolation (s : ServiceState) (event : String)
    (throws : Nat → Bool) :
    (SocketService.triggerEvent s event throws).invoked
        = (s.listeners.get event).getD [] ∧
    (SocketService.triggerEvent s event throws).failures.map (fun p => p.2)
        = ((s.listeners.get event).getD []).filter throws ∧
    (SocketService.triggerEvent s event throws).state = s := by
  unfold SocketService.triggerEvent
  cases h : s.listeners.get event with
  | none => exact ⟨rfl, rfl, rfl⟩
  | some callbacks =>
      by_cases hlen : callbacks.length > 0
      · obtain ⟨h1, h2⟩ := runCallbacks_invokes_all throws callbacks 0
        simp [hlen, h1, h2]
      · have : callbacks = [] := List.length_eq_zero.1 (Nat.eq_zero_of_not_pos hlen)
        subst this
        simp

/-- Claim C6: when the transport reports not-connected
(`this.socket?.connected` falsy), `startViewingFile`, `stopViewingFile`
and the generic `emit` drop the action: the service state is unchanged,
nothing is sent (and there is no queue or retry in the model, matching
the source), and exactly one diagnostic is produced. -/
theorem C6_offline_actions_dropped (s : ServiceState)
    (fileId event data : String) (h : s.socketConnected = false) :
    SocketService.startViewingFile s fileId
      = { state := s, sent := [],
          warnings := ["Cannot start viewing file - socket not connected"] } ∧
    SocketService.stopViewingFile s fileId
      = { state := s, sent := [],
          warnings := ["Cannot stop viewing file - socket not connected"] } ∧
    SocketService.emit s event data
      = { state := s, sent := [],
          warnings := ["Socket not connected, cannot emit event: " ++ event] } := by
  unfold SocketService.startViewingFile SocketService.stopViewingFile
    SocketService.emit
  rw [h]
  exact ⟨rfl, rfl, rfl⟩

/-- Witness for C6 at the fresh service, which is not connected. -/
theorem C6_offline_actions_dropped_witness :
    SocketService.startViewingFile initService "f1"
      = { state := initService, sent := [],
          warnings := ["Cannot start viewing file - socket not connected"] } ∧
    SocketService.stopViewingFile initService "f1"
      = { state := initService, sent := [],
          warnings := ["Cannot stop viewing file - socket not connected"] } ∧
    SocketService.emit initService "evt" "d"
      = { state := initService, sent := [],
          warnings := ["Socket not connected, cannot emit event: " ++ "evt"] } :=
  C6_offline_actions_dropped initService "f1" "evt" "d" rfl

/-- Claim C2 counterexample: `SET_FILE_VIEWERS` stores the payload list
verbatim, so a snapshot carrying the same identity twice breaks the
at-most-one-entry-per-identity invariant even though it held before the
action.  The claim's "every reducer action preserves the invariant" is
therefore false as stated. -/
theorem C2_counterexample_duplicate_snapshot :
    initialViewingState.uniqueViewerIds ∧
    ¬ (viewingReducer initialViewingState
        (.setFileViewers "f"
          [{ id := "u1", name := "n", email := "e", socketId := "s", joinedAt := 0 },
           { id := "u1", name := "n", email := "e", socketId := "s", joinedAt := 0 }])
        3).uniqueViewerIds := by
  decide

/-- Claim C3 counterexample: `connect`, then a `connect_error` (which clears
`isConnecting`), then `connect` again.  The second `connect` passes the
guard and calls `io(...)` again without closing the first socket, so two
transport sessions (ids 0 and 1) are open at once — refuting "at most one
transport session exists per client process at a time". -/
theorem C3_counterexample_two_open_sessions :
    (SocketService.connect
        (SocketService.onConnectErrorEvent (SocketService.connect initService "t"))
        "t").openSessions = [0, 1] ∧
    ¬ (SocketService.connect
        (SocketService.onConnectErrorEvent (SocketService.connect initService "t"))
        "t").openSessions.length ≤ 1 := by
  decide

/-- Claim C8 counterexample: after a `connect` followed by five `connect_error`
events (`connectionAttempts = 5`, the permanent-failure bound),
`forceReconnect` leaves the attempt counter at 5 — it is not reset to
zero by the forced reconnect; only a successful `connect` event resets
it. -/
theorem C8_counterexample_attempts_not_reset :
    (SocketService.forceReconnect
        (SocketService.onConnectErrorEvent (SocketService.onConnectErrorEvent
          (SocketService.onConnectErrorEvent (SocketService.onConnectErrorEvent
            (SocketService.onConnectErrorEvent
              (SocketService.connect initService "t")))))) "t").connectionAttempts
      = 5 ∧
    (SocketService.forceReconnect
        (SocketService.onConnectErrorEvent (SocketService.onConnectErrorEvent
          (SocketService.onConnectErrorEvent (SocketService.onConnectErrorEvent
            (SocketService.onConnectErrorEvent
              (SocketService.connect initService "t")))))) "t").connectionAttempts
      ≠ 0 := by
  decide

/-- Claim C9 counterexample: the provider cleanup (stop viewing + service
`disconnect`) leaves the client's presence cache exactly as it was — the
cached viewer entry for file "f" from before the teardown is still there,
refuting "explicit teardown clears ... the client's local presence
cache". -/
theorem C9_counterexample_cache_survives_teardown :
    (ViewingProvider.cleanup
        { service :=
            { socket := some { sessionId := 0, auth := "t", connected := true,
                               handlers := wireRegistrations },
              isConnected := true, isConnecting := false,
              listeners := [("file-viewers-updated", [1])],
              connectionAttempts := 0, nextSessionId := 1, closedSessions := [] },
          viewing :=
            { fileViewers :=
                [("f", { fileId := "f",
                         viewers := [{ id := "u1", name := "n", email := "e",
                                       socketId := "s", joinedAt := 0 }],
                         lastUpdated := 0 })],
              currentlyViewing := some "f" } }).viewing.fileViewers
      = [("f", { fileId := "f",
                 viewers := [{ id := "u1", name := "n", email := "e",
                               socketId := "s", joinedAt := 0 }],
                 lastUpdated := 0 })] ∧
    ([("f", { fileId := "f",
              viewers := [{ id := "u1", name := "n", email := "e",
                            socketId := "s", joinedAt := 0 }],
              lastUpdated := 0 })] : JsMap FileViewers) ≠ [] := by
  decide

/-- Claim C10 counterexample: already after the FIRST `connect` lifecycle event
(zero reconnects) every wire event has two transport handlers — one from
`setupEventListeners` in the `connect()` body and one from the
`reregisterListeners` call in the `connect` handler — not the single one
the claim predicts, and an inbound `file-viewers-updated` event triggers
the local class twice. -/
theorem C10_counterexample_double_registration :
    SocketService.countHandlers
        (SocketService.onConnectEvent (SocketService.connect initService "t"))
        "file-viewers-updated" = 2 ∧
    SocketService.dispatchWire
        (SocketService.onConnectEvent (SocketService.connect initService "t"))
        "file-viewers-updated"
      = ["file-viewers-updated", "file-viewers-updated"] ∧
    SocketService.countHandlers
        (SocketService.onConnectEvent (SocketService.connect initService "t"))
        "file-viewers-updated" ≠ 1 + 0 := by
  decide

/-- Claim C3 (amended): while a connect attempt is in flight (`isConnecting`)
or an active connection exists (`socket?.connected`), `connect` is a
no-op — the state, and with it the set of open transport sessions, is
unchanged.  But whenever the guard does not hold (in particular after a
failed attempt, with a socket present but not connected), `connect` opens
a fresh transport session and never closes a previous one, so at most one
session at a time is NOT guaranteed across call sequences (see the C3
counterexample). -/
theorem C3_connect_single_flight (s : ServiceState) (token : String) :
    (s.isConnecting = true ∨ s.socketConnected = true →
      SocketService.connect s token = s) ∧
    (s.isConnecting = false → s.socketConnected = false →
      (SocketService.connect s token).nextSessionId = s.nextSessionId + 1 ∧
      (SocketService.connect s token).closedSessions = s.closedSessions ∧
      (SocketService.connect s token).socket
        = some { sessionId := s.nextSessionId, auth := token,
                 connected := false, handlers := wireRegistrations }) := by
  constructor
  · intro h
    unfold SocketService.connect
    rw [if_pos h]
  · intro h1 h2
    unfold SocketService.connect
    rw [if_neg (by simp [h1, h2])]
    exact ⟨rfl, rfl, rfl⟩

/-- Witness for C3: on a connected state a further `connect` is the
identity; on the fresh state `connect` opens session 0. -/
theorem C3_connect_single_flight_witness :
    SocketService.connect
        (SocketService.onConnectEvent (SocketService.connect initService "t")) "t"
      = SocketService.onConnectEvent (SocketService.connect initService "t") ∧
    (SocketService.connect initService "t").nextSessionId
      = initService.nextSessionId + 1 :=
  ⟨(C3_connect_single_flight
      (SocketService.onConnectEvent (SocketService.connect initService "t")) "t").1
      (Or.inr (by decide)),
   ((C3_connect_single_flight initService "t").2 rfl rfl).1⟩

/-- Claim C8 (amended): `forceReconnect` tears the existing connection down
first — the old session is closed and the old socket handle discarded
entirely — and then initiates a fresh connect attempt on a brand-new
socket.  It does NOT reset the reconnection attempt counter: the counter
is reset to zero only by the `connect` success handler. -/
theorem C8_forceReconnect_teardown (s s' : ServiceState) (token : String)
    (sock sock' : SocketState) (hs : s.socket = some sock)
    (hs' : s'.socket = some sock') :
    (SocketService.forceReconnect s token).closedSessions
        = s.closedSessions ++ [sock.sessionId] ∧
    (SocketService.forceReconnect s token).socket
        = some { sessionId := s.nextSessionId, auth := token,
                 connected := false, handlers := wireRegistrations } ∧
    (SocketService.forceReconnect s token).isConnecting = true ∧
    (SocketService.forceReconnect s token).connectionAttempts
        = s.connectionAttempts ∧
    (SocketService.onConnectEvent s').connectionAttempts = 0 := by
  unfold SocketService.forceReconnect SocketService.disconnect
  rw [hs]
  unfold SocketService.connect ServiceState.socketConnected
  simp [SocketService.onConnectEvent, hs']

/-- Witness for C8 on the state right after a first `connect`. -/
theorem C8_forceReconnect_teardown_witness :
    (SocketService.forceReconnect (SocketService.connect initService "t") "t").closedSessions
        = (SocketService.connect initService "t").closedSessions ++ [0] ∧
    (SocketService.forceReconnect (SocketService.connect initService "t") "t").connectionAttempts
        = (SocketService.connect initService "t").connectionAttempts ∧
    (SocketService.onConnectEvent (SocketService.connect initService "t")).connectionAttempts
        = 0 := by
  have h := C8_forceReconnect_teardown (SocketService.connect initService "t")
    (SocketService.connect initService "t") "t"
    { sessionId := 0, auth := "t", connected := false, handlers := wireRegistrations }
    { sessionId := 0, auth := "t", connected := false, handlers := wireRegistrations }
    (by decide) (by decide)
  exact ⟨h.1, h.2.2.2.1, h.2.2.2.2⟩

/-- Claim C9 (amended): explicit teardown clears all local listener
registrations — they stay empty across a subsequent `connect`, so no
subscription from before the teardown survives — but the client's local
presence cache (the reducer's `fileViewers`) is NOT cleared by the
cleanup: it is left exactly as it was (see the C9 counterexample). -/
theorem C9_teardown_clears_listeners_not_cache (c : ClientState)
    (sock : SocketState) (hs : c.service.socket = some sock) (token : String) :
    (ViewingProvider.cleanup c).service.listeners = [] ∧
    (SocketService.connect (ViewingProvider.cleanup c).service token).listeners = [] ∧
    (ViewingProvider.cleanup c).viewing = c.viewing := by
  have hstop : ∀ fileId, (SocketService.stopViewingFile c.service fileId).state
      = c.service := by
    intro fileId
    unfold SocketService.stopViewingFile
    split <;> rfl
  unfold ViewingProvider.cleanup
  cases hcv : c.viewing.currentlyViewing with
  | none =>
      simp only [hcv]
      unfold SocketService.disconnect
      rw [hs]
      unfold SocketService.connect ServiceState.socketConnected
      simp
  | some fileId =>
      simp only [hcv, hstop]
      unfold SocketService.disconnect
      rw [hs]
      unfold SocketService.connect ServiceState.socketConnected
      simp

/-- Witness for C9 on a connected client that is viewing "f" and has a
cached viewer entry and a registered listener. -/
theorem C9_teardown_witness :
    (ViewingProvider.cleanup
        { service :=
            { socket := some { sessionId := 0, auth := "t", connected := true,
                               handlers := wireRegistrations },
              isConnected := true, isConnecting := false,
              listeners := [("file-viewers-updated", [1])],
              connectionAttempts := 0, nextSessionId := 1, closedSessions := [] },
          viewing :=
            { fileViewers :=
                [("f", { fileId := "f",
                         viewers := [{ id := "u1", name := "n", email := "e",
                                       socketId := "s", joinedAt := 0 }],
                         lastUpdated := 0 })],
              currentlyViewing := some "f" } }).service.listeners = [] ∧
    (ViewingProvider.cleanup
        { service :=
            { socket := some { sessionId := 0, auth := "t", connected := true,
                               handlers := wireRegistrations },
              isConnected := true, isConnecting := false,
              listeners := [("file-viewers-updated", [1])],
              connectionAttempts := 0, nextSessionId := 1, closedSessions := [] },
          viewing :=
            { fileViewers :=
                [("f", { fileId := "f",
                         viewers := [{ id := "u1", name := "n", email := "e",
                                       socketId := "s", joinedAt := 0 }],
                         lastUpdated := 0 })],
              currentlyViewing := some "f" } }).viewing
      = { fileViewers :=
            [("f", { fileId := "f",
                     viewers := [{ id := "u1", name := "n", email := "e",
                                   socketId := "s", joinedAt := 0 }],
                     lastUpdated := 0 })],
          currentlyViewing := some "f" } := by
  have h := C9_teardown_clears_listeners_not_cache
    { service :=
        { socket := some { sessionId := 0, auth := "t", connected := true,
                           handlers := wireRegistrations },
          isConnected := true, isConnecting := false,
          listeners := [("file-viewers-updated", [1])],
          connectionAttempts := 0, nextSessionId := 1, closedSessions := [] },
      viewing :=
        { fileViewers :=
            [("f", { fileId := "f",
                     viewers := [{ id := "u1", name := "n", email := "e",
                                   socketId := "s", joinedAt := 0 }],
                     lastUpdated := 0 })],
          currentlyViewing := some "f" } }
    { sessionId := 0, auth := "t", connected := true,
      handlers := wireRegistrations } rfl "t"
  exact ⟨h.1, h.2.2⟩

/-- Claim C4: `on` appends the callback at the end of the event class's ordered
list without deduplication and leaves other classes untouched; `off`
removes exactly the first matching instance (`List.erase` semantics), is
a no-op when the callback is absent, and leaves other classes untouched;
a dispatch invokes every currently registered callback of the class
exactly once, in registration order. -/
theorem C4_listener_registry (s : ServiceState) (e e' : String) (c : Nat)
    (throws : Nat → Bool) :
    ((SocketService.«on» s e c).listeners.get e).getD []
        = ((s.listeners.get e).getD []) ++ [c] ∧
    (e' ≠ e → ((SocketService.«on» s e c).listeners.get e').getD []
        = (s.listeners.get e').getD []) ∧
    ((SocketService.off s e c).listeners.get e).getD []
        = ((s.listeners.get e).getD []).erase c ∧
    (e' ≠ e → ((SocketService.off s e c).listeners.get e').getD []
        = (s.listeners.get e').getD []) ∧
    (c ∉ (s.listeners.get e).getD [] → SocketService.off s e c = s) ∧
    (SocketService.triggerEvent s e throws).invoked
        = (s.listeners.get e).getD [] := by
  refine ⟨?_, ?_, ?_, ?_, ?_, ?_⟩
  · unfold SocketService.«on»
    cases hget : s.listeners.get e with
    | none =>
        simp only [hget, Option.isSome_none, Bool.false_eq_true, if_false]
        rw [JsMap.get_set_self, JsMap.get_set_self]
        simp [hget]
    | some l =>
        simp only [hget, Option.isSome_some, if_true]
        rw [JsMap.get_set_self]
        simp [hget]
  · intro he
    unfold SocketService.«on»
    cases hget : s.listeners.get e with
    | none =>
        simp only [hget, Option.isSome_none, Bool.false_eq_true, if_false]
        rw [JsMap.get_set_ne _ _ _ _ he, JsMap.get_set_ne _ _ _ _ he]
    | some l =>
        simp only [hget, Option.isSome_some, if_true]
        rw [JsMap.get_set_ne _ _ _ _ he]
  · unfold SocketService.off
    cases hget : s.listeners.get e with
    | none => simp [hget]
    | some callbacks =>
        by_cases hc : callbacks.contains c
        · simp only [hget, hc, if_true]
          rw [JsMap.get_set_self]
          simp [List.eraseIdx_indexOf_eq_erase, hget]
        · simp only [hget, hc, Bool.false_eq_true, if_false]
          have : c ∉ callbacks := by simpa using hc
          simp [hget, List.erase_of_not_mem this]
  · intro he
    unfold SocketService.off
    cases hget : s.listeners.get e with
    | none => rfl
    | some callbacks =>
        by_cases hc : callbacks.contains c
        · simp only [hget, hc, if_true]
          rw [JsMap.get_set_ne _ _ _ _ he]
        · have hnotin : c ∉ callbacks := by simpa using hc
          simp [hget, hnotin]
  · intro hc
    unfold SocketService.off
    cases hget : s.listeners.get e with
    | none => rfl
    | some callbacks =>
        rw [hget] at hc
        have hnotin : c ∉ callbacks := by simpa using hc
        simp [hget, hnotin]
  · unfold SocketService.triggerEvent
    cases hget : s.listeners.get e with
    | none => simp [hget]
    | some callbacks =>
        by_cases hlen : callbacks.length > 0
        · simp [hget, hlen, (runCallbacks_invokes_all throws callbacks 0).1]
        · have : callbacks = [] := List.length_eq_zero.1 (Nat.eq_zero_of_not_pos hlen)
          subst this
          simp [hget]

/-- Witness for C4 on a registry holding callback 1 for class "a". -/
theorem C4_listener_registry_witness :
    ("b" ≠ "a") ∧
    ((SocketService.«on» { initService with listeners := [("a", [1])] } "a" 5).listeners.get "a").getD []
      = [1, 5] ∧
    ((SocketService.off { initService with listeners := [("a", [1])] } "a" 1).listeners.get "a").getD []
      = [] ∧
    SocketService.off { initService with listeners := [("a", [1])] } "b" 9
      = { initService with listeners := [("a", [1])] } ∧
    (SocketService.triggerEvent { initService with listeners := [("a", [1])] } "a"
        (fun _ => false)).invoked = [1] := by
  have h := C4_listener_registry { initService with listeners := [("a", [1])] }
    "a" "b" 5 (fun _ => false)
  have h2 := C4_listener_registry { initService with listeners := [("a", [1])] }
    "b" "a" 9 (fun _ => false)
  have h3 := C4_listener_registry { initService with listeners := [("a", [1])] }
    "a" "b" 1 (fun _ => false)
  exact ⟨by decide,
         h.1.trans (by decide),
         (h3.2.2.1).trans (by decide),
         h2.2.2.2.2.1 (by decide),
         h.2.2.2.2.2.trans (by decide)⟩

/-! ## Helper lemmas about `upsertByIdentity` -/

theorem findIdx?_none_any_false (l : List ViewerInfo) (v : ViewerInfo)
    (h : l.findIdx? (fun w => w.id = v.id) = none) :
    l.any (fun w => w.id = v.id) = false := by
  rw [List.findIdx?_eq_none_iff] at h
  rw [List.any_eq_false]
  intro x hx
  simp [h x hx]

theorem findIdx?_some_any_true (l : List ViewerInfo) (v : ViewerInfo) (j : Nat)
    (h : l.findIdx? (fun w => w.id = v.id) = some j) :
    l.any (fun w => w.id = v.id) = true := by
  cases hat : l.any (fun w => w.id = v.id) with
  | false =>
      exfalso
      have hall : ∀ x ∈ l, ¬ x.id = v.id := by simpa using hat
      have : l.findIdx? (fun w => w.id = v.id) = none :=
        List.findIdx?_eq_none_iff.2 (fun x hx => by simpa using hall x hx)
      rw [this] at h
      exact Option.noConfusion h
  | true => rfl

theorem upsert_insert (l : List ViewerInfo) (v : ViewerInfo)
    (h : l.findIdx? (fun w => w.id = v.id) = none) :
    upsertByIdentity l v = l ++ [v] := by
  unfold upsertByIdentity
  rw [if_neg]
  simp [findIdx?_none_any_false l v h]

theorem upsert_replace (v : ViewerInfo) :
    ∀ (l : List ViewerInfo) (i : Nat), viewerIdsNodup l →
      l.findIdx? (fun w => w.id = v.id) = some i →
      l.set i v = upsertByIdentity l v := by
  intro l
  induction l with
  | nil => intro i _ h; simp at h
  | cons w t ih =>
      intro i hnd h
      have hnd' : (w.id :: t.map (fun y => y.id)).Nodup := by
        simpa [viewerIdsNodup] using hnd
      rw [List.findIdx?_cons] at h
      by_cases hw : w.id = v.id
      · rw [if_pos (by simpa using hw)] at h
        obtain rfl : (0 : Nat) = i := Option.some.inj h
        have hany : (w :: t).any (fun x => x.id = v.id) = true :=
          List.any_eq_true.2 ⟨w, List.mem_cons_self w t, by simpa using hw⟩
        unfold upsertByIdentity
        rw [if_pos hany]
        have htid : ∀ x ∈ t, ¬ x.id = v.id := by
          intro x hx hxid
          exact (List.nodup_cons.1 hnd').1
            (hw ▸ hxid ▸ List.mem_map_of_mem (fun y => y.id) hx)
        have hmapt : t.map (fun x => if x.id = v.id then v else x) = t := by
          conv_rhs => rw [← List.map_id t]
          refine List.map_congr_left fun x hx => ?_
          simp [htid x hx]
        simp [hw, hmapt]
      · rw [if_neg (by simpa using hw)] at h
        rw [List.findIdx?_succ] at h
        cases hj : t.findIdx? (fun x => x.id = v.id) with
        | none => rw [hj] at h; simp at h
        | some j =>
            rw [hj] at h
            simp only [Option.map_some'] at h
            obtain rfl : j + 1 = i := Option.some.inj h
            have hndt : viewerIdsNodup t := (List.nodup_cons.1 hnd').2
            have ih' := ih j hndt hj
            have hanyt : t.any (fun x => x.id = v.id) = true :=
              findIdx?_some_any_true t v j hj
            have hany : (w :: t).any (fun x => x.id = v.id) = true := by
              simp [List.any_cons, hanyt]
            unfold upsertByIdentity at ih' ⊢
            rw [if_pos hany]
            rw [if_pos hanyt] at ih'
            have hset : (w :: t).set (j + 1) v = w :: t.set j v := rfl
            rw [hset, ih']
            simp [hw]

theorem viewerIdsNodup_upsert (l : List ViewerInfo) (v : ViewerInfo)
    (h : viewerIdsNodup l) : viewerIdsNodup (upsertByIdentity l v) := by
  unfold upsertByIdentity
  split
  next =>
    have hids : (l.map fun w => if w.id = v.id then v else w).map (fun w => w.id)
        = l.map (fun w => w.id) := by
      rw [List.map_map]
      refine List.map_congr_left fun w _ => ?_
      by_cases hw : w.id = v.id <;> simp [Function.comp, hw]
    unfold viewerIdsNodup at h ⊢
    rw [hids]
    exact h
  next hany =>
    have hv : v.id ∉ l.map (fun w => w.id) := by
      intro hmem
      obtain ⟨w, hwmem, hwid⟩ := List.mem_map.1 hmem
      exact (by simpa using hany : ∀ w ∈ l, ¬ w.id = v.id) w hwmem hwid
    unfold viewerIdsNodup at h ⊢
    rw [List.map_append]
    simp [List.nodup_append, h, hv]

theorem viewerIdsNodup_filter (l : List ViewerInfo) (p : ViewerInfo → Bool)
    (h : viewerIdsNodup l) : viewerIdsNodup (l.filter p) :=
  List.Nodup.sublist ((List.filter_sublist l).map (fun w => w.id)) h

/-- Step lemma: `USER_STARTED_VIEWING` on a cached file. -/
theorem viewingReducer_userStartedViewing_some (s : ViewingState)
    (fId : String) (v : ViewerInfo) (now : Nat) (cur : FileViewers)
    (hget : s.fileViewers.get fId = some cur) :
    viewingReducer s (.userStartedViewing fId v) now
      = { s with fileViewers := s.fileViewers.set fId ({
          fileId := cur.fileId,
          viewers :=
            match cur.viewers.findIdx? (fun w => w.id = v.id) with
            | none => cur.viewers ++ [v]
            | some i => cur.viewers.set i v,
          lastUpdated := now }) } := by
  have h : viewingReducer s (.userStartedViewing fId v) now
      = (let currentViewers := (s.fileViewers.get fId).getD
            { fileId := fId, viewers := [], lastUpdated := now };
         { s with fileViewers := s.fileViewers.set fId ({
            fileId := currentViewers.fileId,
            viewers :=
              match currentViewers.viewers.findIdx? (fun w => w.id = v.id) with
              | none => currentViewers.viewers ++ [v]
              | some i => currentViewers.viewers.set i v,
            lastUpdated := now }) }) := rfl
  rw [h, hget]
  rfl

/-- Step lemma: `USER_STARTED_VIEWING` on an uncached file. -/
theorem viewingReducer_userStartedViewing_none (s : ViewingState)
    (fId : String) (v : ViewerInfo) (now : Nat)
    (hget : s.fileViewers.get fId = none) :
    viewingReducer s (.userStartedViewing fId v) now
      = { s with fileViewers := s.fileViewers.set fId ({
          fileId := fId, viewers := [v], lastUpdated := now }) } := by
  have h : viewingReducer s (.userStartedViewing fId v) now
      = (let currentViewers := (s.fileViewers.get fId).getD
            { fileId := fId, viewers := [], lastUpdated := now };
         { s with fileViewers := s.fileViewers.set fId ({
            fileId := currentViewers.fileId,
            viewers :=
              match currentViewers.viewers.findIdx? (fun w => w.id = v.id) with
              | none => currentViewers.viewers ++ [v]
              | some i => currentViewers.viewers.set i v,
            lastUpdated := now }) }) := rfl
  rw [h, hget]
  rfl

/-- Step lemma: `USER_STOPPED_VIEWING` on a cached file. -/
theorem viewingReducer_userStoppedViewing_some (s : ViewingState)
    (fId uid : String) (now : Nat) (cur : FileViewers)
    (hget : s.fileViewers.get fId = some cur) :
    viewingReducer s (.userStoppedViewing fId uid) now
      = if (cur.viewers.filter (fun w => ¬ w.id = uid)).isEmpty then
          { s with fileViewers := s.fileViewers.del fId }
        else
          { s with fileViewers := s.fileViewers.set fId ({
              fileId := cur.fileId,
              viewers := cur.viewers.filter (fun w => ¬ w.id = uid),
              lastUpdated := now }) } := by
  have h : viewingReducer s (.userStoppedViewing fId uid) now
      = match s.fileViewers.get fId with
        | some cur =>
            if (cur.viewers.filter (fun w => ¬ w.id = uid)).isEmpty then
              { s with fileViewers := s.fileViewers.del fId }
            else
              { s with fileViewers := s.fileViewers.set fId ({
                  fileId := cur.fileId,
                  viewers := cur.viewers.filter (fun w => ¬ w.id = uid),
                  lastUpdated := now }) }
        | none => { s with fileViewers := s.fileViewers } := rfl
  rw [h, hget]

/-- Claim C2 (amended): provided the viewer lists carried by action payloads
contain no duplicate identity ids (which the code does not check — see
the C2 counterexample for `SET_FILE_VIEWERS`), every reducer action
preserves the invariant that each cached viewer list holds at most one
entry per identity id; moreover `USER_STARTED_VIEWING` performs exactly
the spec's insert-or-replace by identity: when the file is cached, the
stored list becomes `upsertByIdentity` of the old list (append when the
identity is absent, in-place replacement when present), and when the file
is not cached a singleton entry is created. -/
theorem C2_viewer_uniqueness (s : ViewingState) (now : Nat)
    (hs : s.uniqueViewerIds) :
    (∀ a : ViewingAction, a.payloadViewerIdsNodup →
        (viewingReducer s a now).uniqueViewerIds) ∧
    (∀ fileId viewer cur, s.fileViewers.get fileId = some cur →
        (viewingReducer s (.userStartedViewing fileId viewer) now).fileViewers.get fileId
          = some { fileId := cur.fileId,
                   viewers := upsertByIdentity cur.viewers viewer,
                   lastUpdated := now }) ∧
    (∀ fileId viewer, s.fileViewers.get fileId = none →
        (viewingReducer s (.userStartedViewing fileId viewer) now).fileViewers.get fileId
          = some { fileId := fileId, viewers := [viewer], lastUpdated := now }) := by
  refine ⟨?_, ?_, ?_⟩
  · intro a ha
    cases a with
    | setFileViewers fileId viewers =>
        intro p hp
        unfold viewingReducer at hp
        rcases JsMap.mem_set hp with rfl | hp'
        · exact ha
        · exact hs p hp'
    | userStartedViewing fileId viewer =>
        intro p hp
        cases hget : s.fileViewers.get fileId with
        | some cur =>
            rw [viewingReducer_userStartedViewing_some s fileId viewer now cur hget] at hp
            have hcur : viewerIdsNodup cur.viewers :=
              hs (fileId, cur) (JsMap.get_mem hget)
            rcases JsMap.mem_set hp with rfl | hp'
            · cases hidx : cur.viewers.findIdx? (fun w => w.id = viewer.id) with
              | none =>
                  show viewerIdsNodup (cur.viewers ++ [viewer])
                  rw [← upsert_insert cur.viewers viewer hidx]
                  exact viewerIdsNodup_upsert cur.viewers viewer hcur
              | some i =>
                  show viewerIdsNodup (cur.viewers.set i viewer)
                  rw [upsert_replace viewer cur.viewers i hcur hidx]
                  exact viewerIdsNodup_upsert cur.viewers viewer hcur
            · exact hs p hp'
        | none =>
            rw [viewingReducer_userStartedViewing_none s fileId viewer now hget] at hp
            rcases JsMap.mem_set hp with rfl | hp'
            · show viewerIdsNodup [viewer]
              simp [viewerIdsNodup]
            · exact hs p hp'
    | userStoppedViewing fileId userId =>
        intro p hp
        cases hget : s.fileViewers.get fileId with
        | some cur =>
            rw [viewingReducer_userStoppedViewing_some s fileId userId now cur hget] at hp
            have hcur : viewerIdsNodup cur.viewers :=
              hs (fileId, cur) (JsMap.get_mem hget)
            by_cases hemp : (cur.viewers.filter (fun w => ¬ w.id = userId)).isEmpty = true
            · rw [if_pos hemp] at hp
              exact hs p (JsMap.mem_del hp)
            · rw [if_neg hemp] at hp
              rcases JsMap.mem_set hp with rfl | hp'
              · exact viewerIdsNodup_filter cur.viewers _ hcur
              · exact hs p hp'
        | none =>
            have h : viewingReducer s (.userStoppedViewing fileId userId) now
                = match s.fileViewers.get fileId with
                  | some cur =>
                      if (cur.viewers.filter (fun w => ¬ w.id = userId)).isEmpty then
                        { s with fileViewers := s.fileViewers.del fileId }
                      else
                        { s with fileViewers := s.fileViewers.set fileId ({
                            fileId := cur.fileId,
                            viewers := cur.viewers.filter (fun w => ¬ w.id = userId),
                            lastUpdated := now }) }
                  | none => { s with fileViewers := s.fileViewers } := rfl
            rw [h, hget] at hp
            exact hs p hp
    | setCurrentlyViewing payload =>
        intro p hp
        exact hs p hp
    | clearFileViewers payload =>
        intro p hp
        exact hs p (JsMap.mem_del hp)
  · intro fileId viewer cur hget
    rw [viewingReducer_userStartedViewing_some s fileId viewer now cur hget,
      JsMap.get_set_self]
    have hcur : viewerIdsNodup cur.viewers :=
      hs (fileId, cur) (JsMap.get_mem hget)
    cases hidx : cur.viewers.findIdx? (fun w => w.id = viewer.id) with
    | none => rw [upsert_insert cur.viewers viewer hidx]
    | some i => rw [← upsert_replace viewer cur.viewers i hcur hidx]
  · intro fileId viewer hget
    rw [viewingReducer_userStartedViewing_none s fileId viewer now hget,
      JsMap.get_set_self]

/-- Witness for C2 on a state caching one viewer of "f": the theorem is
applied with its invariant hypothesis discharged by `decide`, showing the
invariant after an insert and the upsert characterization. -/
theorem C2_viewer_uniqueness_witness :
    (viewingReducer
        { fileViewers :=
            [("f", { fileId := "f",
                     viewers := [{ id := "u1", name := "n1", email := "e1",
                                   socketId := "s1", joinedAt := 0 }],
                     lastUpdated := 0 })],
          currentlyViewing := none }
        (.userStartedViewing "f"
          { id := "u2", name := "n2", email := "e2", socketId := "s2", joinedAt := 1 })
        5).uniqueViewerIds ∧
    (viewingReducer
        { fileViewers :=
            [("f", { fileId := "f",
                     viewers := [{ id := "u1", name := "n1", email := "e1",
                                   socketId := "s1", joinedAt := 0 }],
                     lastUpdated := 0 })],
          currentlyViewing := none }
        (.userStartedViewing "f"
          { id := "u2", name := "n2", email := "e2", socketId := "s2", joinedAt := 1 })
        5).fileViewers.get "f"
      = some { fileId := "f",
               viewers := upsertByIdentity
                 [{ id := "u1", name := "n1", email := "e1",
                    socketId := "s1", joinedAt := 0 }]
                 { id := "u2", name := "n2", email := "e2",
                   socketId := "s2", joinedAt := 1 },
               lastUpdated := 5 } := by
  have h := C2_viewer_uniqueness
    { fileViewers :=
        [("f", { fileId := "f",
                 viewers := [{ id := "u1", name := "n1", email := "e1",
                               socketId := "s1", joinedAt := 0 }],
                 lastUpdated := 0 })],
      currentlyViewing := none }
    5 (by decide)
  exact ⟨h.1 (.userStartedViewing "f"
          { id := "u2", name := "n2", email := "e2", socketId := "s2", joinedAt := 1 })
          (by decide),
         h.2.1 "f"
          { id := "u2", name := "n2", email := "e2", socketId := "s2", joinedAt := 1 }
          { fileId := "f",
            viewers := [{ id := "u1", name := "n1", email := "e1",
                          socketId := "s1", joinedAt := 0 }],
            lastUpdated := 0 }
          (by decide)⟩

/-! ## Helper lemmas for handler accumulation (C10) -/

theorem countHandlers_onConnectEvent (s : ServiceState) (sock : SocketState)
    (hs : s.socket = some sock) (w : String) :
    SocketService.countHandlers (SocketService.onConnectEvent s) w
      = SocketService.countHandlers s w
        + (wireRegistrations.filter (fun h => h.1 = w)).length := by
  unfold SocketService.countHandlers SocketService.onConnectEvent
  rw [hs]
  simp [List.filter_append]

theorem dispatchWire_onConnectEvent (s : ServiceState) (sock : SocketState)
    (hs : s.socket = some sock) (w : String) :
    SocketService.dispatchWire (SocketService.onConnectEvent s) w
      = SocketService.dispatchWire s w
        ++ wireRegistrations.filterMap (fun h => if h.1 = w then h.2 else none) := by
  unfold SocketService.dispatchWire SocketService.onConnectEvent
  rw [hs]
  simp [List.filterMap_append]

theorem onConnectEvent_socket (s : ServiceState) (sock : SocketState)
    (hs : s.socket = some sock) :
    (SocketService.onConnectEvent s).socket
      = some ({ sock with
          connected := true,
          handlers := sock.handlers ++ wireRegistrations }) := by
  unfold SocketService.onConnectEvent
  rw [hs]

theorem countHandlers_applyConnects (w : String) :
    ∀ (k : Nat) (s : ServiceState) (sock : SocketState), s.socket = some sock →
      SocketService.countHandlers (SocketService.applyConnects k s) w
        = SocketService.countHandlers s w
          + k * (wireRegistrations.filter (fun h => h.1 = w)).length := by
  intro k
  induction k with
  | zero =>
      intro s sock hs
      simp [SocketService.applyConnects]
  | succ k ih =>
      intro s sock hs
      have hstep := ih (SocketService.onConnectEvent s) _ (onConnectEvent_socket s sock hs)
      show SocketService.countHandlers
        (SocketService.applyConnects k (SocketService.onConnectEvent s)) w = _
      rw [hstep, countHandlers_onConnectEvent s sock hs w]
      ring

theorem dispatchWire_applyConnects (w : String) :
    ∀ (k : Nat) (s : ServiceState) (sock : SocketState), s.socket = some sock →
      SocketService.dispatchWire (SocketService.applyConnects k s) w
        = SocketService.dispatchWire s w
          ++ (List.replicate k
              (wireRegistrations.filterMap (fun h => if h.1 = w then h.2 else none))).flatten := by
  intro k
  induction k with
  | zero =>
      intro s sock hs
      simp [SocketService.applyConnects]
  | succ k ih =>
      intro s sock hs
      have hstep := ih (SocketService.onConnectEvent s) _ (onConnectEvent_socket s sock hs)
      show SocketService.dispatchWire
        (SocketService.applyConnects k (SocketService.onConnectEvent s)) w = _
      rw [hstep, dispatchWire_onConnectEvent s sock hs w]
      rw [List.replicate_succ, List.flatten_cons, List.append_assoc]

/-- Each wire event name occurs exactly once in `setupEventListeners`, and
its handler triggers exactly its own local event class. -/
theorem wireRegistrations_unique :
    ∀ p ∈ wireRegistrations,
      (wireRegistrations.filter (fun h => h.1 = p.1)).length = 1 ∧
      wireRegistrations.filterMap (fun h => if h.1 = p.1 then h.2 else none)
        = p.2.toList := by
  decide

theorem connect_initService (token : String) :
    SocketService.connect initService token
      = { initService with
          isConnecting := true,
          socket := some { sessionId := 0, auth := token,
                           connected := false, handlers := wireRegistrations },
          nextSessionId := 1 } := rfl

theorem flatten_replicate_singleton {α : Type} (x : α) :
    ∀ k : Nat, (List.replicate k [x]).flatten = List.replicate k x := by
  intro k
  induction k with
  | zero => rfl
  | succ k ih => simp [List.replicate_succ, ih]

theorem flatten_replicate_nil {α : Type} :
    ∀ k : Nat, (List.replicate k ([] : List α)).flatten = [] := by
  intro k
  induction k with
  | zero => rfl
  | succ k ih => simp [List.replicate_succ, ih]

/-- Claim C10 (amended): after `connect()` and `k ≥ 0` firings of the
transport's `connect` lifecycle event (the first firing being the initial
successful connection, so `k - 1` reconnects), every wire event of
`setupEventListeners` has `1 + k` registered transport handlers — i.e.
two plus the number of reconnects, one from the `connect()` body and one
per `connect` event via `reregisterListeners`, none ever removed — and an
inbound wire event triggers its local event class once per registration,
`1 + k` times in total. -/
theorem C10_handler_accumulation (k : Nat) (w : String) (lcl : Option String)
    (token : String) (hw : (w, lcl) ∈ wireRegistrations) :
    SocketService.countHandlers
        (SocketService.applyConnects k (SocketService.connect initService token)) w
      = 1 + k ∧
    SocketService.dispatchWire
        (SocketService.applyConnects k (SocketService.connect initService token)) w
      = (lcl.map (fun l => List.replicate (1 + k) l)).getD [] := by
  obtain ⟨hcnt, hfm⟩ := wireRegistrations_unique (w, lcl) hw
  have hsock : (SocketService.connect initService token).socket
      = some { sessionId := 0, auth := token,
               connected := false, handlers := wireRegistrations } := by
    rw [connect_initService]
  have hbasecnt : SocketService.countHandlers
      (SocketService.connect initService token) w
      = (wireRegistrations.filter (fun h => h.1 = w)).length := by
    unfold SocketService.countHandlers
    rw [hsock]
  have hbasedw : SocketService.dispatchWire
      (SocketService.connect initService token) w
      = wireRegistrations.filterMap (fun h => if h.1 = w then h.2 else none) := by
    unfold SocketService.dispatchWire
    rw [hsock]
  constructor
  · rw [countHandlers_applyConnects w k _ _ hsock, hbasecnt, hcnt]
    ring
  · rw [dispatchWire_applyConnects w k _ _ hsock, hbasedw, hfm]
    cases lcl with
    | none => simp [flatten_replicate_nil]
    | some l =>
        simp only [Option.toList_some, Option.map_some', Option.getD_some]
        rw [flatten_replicate_singleton]
        have : (1 + k) = k + 1 := Nat.add_comm 1 k
        rw [this, List.replicate_succ]
        rfl

/-- Witness for C10: after the initial connection and two reconnects
(three `connect` events), the `file-viewers-updated` wire event has four
transport handlers and an inbound event triggers the local class four
times. -/
theorem C10_handler_accumulation_witness :
    SocketService.countHandlers
        (SocketService.applyConnects 3 (SocketService.connect initService "t"))
        "file-viewers-updated" = 1 + 3 ∧
    SocketService.dispatchWire
        (SocketService.applyConnects 3 (SocketService.connect initService "t"))
        "file-viewers-updated"
      = ((some "file-viewers-updated").map
          (fun l => List.replicate (1 + 3) l)).getD [] :=
  C10_handler_accumulation 3 "file-viewers-updated"
    (some "file-viewers-updated") "t" (by decide)

end UploadFiles
